import Mathlib

/-!
Verification of the billing-state reconciliation engine of the
ai-multilingual-blog backend.

The definitions below are a shallow embedding of
`src/backend/src/controllers/subscription.controller.js` and
`src/backend/src/config/stripe.js`.  The subscription record is modelled
exactly as the controller reads and writes it: a user document with a
top-level `stripeCustomerId`, an optional `subscription` sub-document
(`subscriptionId`, `planId`, `status`, `currentPeriodEnd`,
`cancelAtPeriodEnd`) and a `roles` array.  Calls to the Stripe API are
modelled as data: reads become function/option parameters (the provider's
response, `none` standing for a thrown error), writes become a list of
`ProviderCall` values recorded in the result.  A `saveOk` flag models
whether the Mongoose `user.save()` persistence write succeeds; a failing
save leaves the stored record unchanged.  The project's logger
(`utils/logger.js`) defines `error` as a wrapper that invokes
`logger.error` again, so every call to it recurses until it throws a
`RangeError`: it never logs and never returns.  The record-level
functions (`dispatchEvent` and the handlers) capture what each operation
writes to the store; `runEventHandler` and `handleStripeWebhookRun`
additionally capture which paths reach a `logger.error` call and
therefore end as an uncaught exception instead of a normal response.
-/

/-- The `subscription` sub-document of a user record, with the fields the
controller reads and writes. `currentPeriodEnd` is in milliseconds
(`new Date(current_period_end * 1000)`). -/
structure Subscription where
  subscriptionId : Option String
  planId : String
  status : String
  currentPeriodEnd : Int
  cancelAtPeriodEnd : Bool
  deriving DecidableEq, Repr

/-- The slice of the user document touched by the subscription controller. -/
structure UserRec where
  stripeCustomerId : Option String
  subscription : Option Subscription
  roles : List String
  deriving DecidableEq, Repr

/-- A Stripe subscription object as consumed by the controller:
`id`, `status`, `current_period_end` (seconds), `cancel_at_period_end`,
and `items.data[0].price.id` (here `priceId`). -/
structure StripeSubscription where
  id : String
  status : String
  current_period_end : Int
  cancel_at_period_end : Bool
  priceId : String
  deriving DecidableEq, Repr

/-- A Stripe checkout session object: `session.subscription` (may be absent)
and `session.customer`. -/
structure CheckoutSession where
  subscription : Option String
  customer : String
  deriving DecidableEq, Repr

/-- A verified Stripe webhook event.  `created` is the provider-reported
event time (the spec's `occurredAt`).  `session` is the payload read when
`type` is `checkout.session.completed`; `sub` is the payload read when
`type` is a `customer.subscription.*` event; `invoice` is the
`invoice.subscription` reference (absent on non-subscription invoices)
read when `type` is an `invoice.*` event; the components not matching the
type are ignored by the dispatcher, as in the source. -/
structure StripeEvent where
  id : String
  type : String
  created : Int
  session : CheckoutSession
  sub : StripeSubscription
  invoice : Option String
  deriving DecidableEq, Repr

/-- The provider lookup `stripe.getSubscription`; `none` models a thrown
error. -/
def Fetch : Type := String → Option StripeSubscription

/-- `if (!user.roles.includes('premium')) user.roles.push('premium')`. -/
def addPremium (l : List String) : List String :=
  if l.contains "premium" then l else l ++ ["premium"]

/-- `user.roles = user.roles.filter((role) => role !== 'premium')`. -/
def removePremium (l : List String) : List String :=
  l.filter (fun r => r != "premium")

/-- Role adjustment performed by `handleSubscriptionUpdated`: add `premium`
when the event status is `active`, remove it when the status is in
`['canceled', 'unpaid', 'past_due']`, otherwise leave roles alone. -/
def roleAdjust (status : String) (l : List String) : List String :=
  if status = "active" then addPremium l
  else if status = "canceled" ∨ status = "unpaid" ∨ status = "past_due" then
    removePremium l
  else l

/-- `if (subscription.items.data[0].price.id !== user.subscription.planId)
user.subscription.planId = subscription.items.data[0].price.id`. -/
def pickPlan (priceId planId : String) : String :=
  if priceId ≠ planId then priceId else planId

/-- `handleCheckoutSessionCompleted(session)`: look up the subscription at
the provider, find the user by `stripeCustomerId`, replace the whole
`subscription` sub-document and grant the `premium` role.  Every failure
path (missing subscription id, provider throw, no matching user, failing
save) leaves the record unchanged; the errors those paths raise through
the self-recursive `logger.error` are tracked by `runEventHandler`. -/
def handleCheckoutSessionCompleted (f : Fetch) (saveOk : Bool)
    (session : CheckoutSession) (u : UserRec) : UserRec :=
  match session.subscription with
  | none => u
  | some subId =>
    match f subId with
    | none => u
    | some det =>
      if u.stripeCustomerId = some session.customer then
        if saveOk then
          { u with
            subscription := some
              { subscriptionId := some subId
                planId := det.priceId
                status := det.status
                currentPeriodEnd := det.current_period_end * 1000
                cancelAtPeriodEnd := det.cancel_at_period_end }
            roles := addPremium u.roles }
        else u
      else u

/-- `handleSubscriptionUpdated(subscription)`: find the user whose stored
`subscription.subscriptionId` equals the event's subscription id, then
overwrite `status`, `currentPeriodEnd`, `cancelAtPeriodEnd` (and `planId`
when it changed) from the event and adjust the `premium` role.  No
staleness or idempotency check is performed. -/
def handleSubscriptionUpdated (saveOk : Bool) (sub : StripeSubscription)
    (u : UserRec) : UserRec :=
  match u.subscription with
  | none => u
  | some s =>
    if s.subscriptionId = some sub.id then
      if saveOk then
        { u with
          subscription := some
            { s with
              status := sub.status
              currentPeriodEnd := sub.current_period_end * 1000
              cancelAtPeriodEnd := sub.cancel_at_period_end
              planId := pickPlan sub.priceId s.planId }
          roles := roleAdjust sub.status u.roles }
      else u
    else u

/-- `handleSubscriptionDeleted(subscription)`: set the status to `canceled`
and remove the `premium` role for the user owning the subscription. -/
def handleSubscriptionDeleted (saveOk : Bool) (sub : StripeSubscription)
    (u : UserRec) : UserRec :=
  match u.subscription with
  | none => u
  | some s =>
    if s.subscriptionId = some sub.id then
      if saveOk then
        { u with
          subscription := some { s with status := "canceled" }
          roles := removePremium u.roles }
      else u
    else u

/-- The record effect of the `switch (event.type)` in
`handleStripeWebhook`: what each branch writes to the subscription state
store.  The invoice handlers (`invoice.payment_succeeded`,
`invoice.payment_failed`) only emit analytics and the `default` branch
only logs, so they leave the record unchanged whether or not they throw;
the errors the branches raise are tracked separately by
`runEventHandler`. -/
def dispatchEvent (f : Fetch) (saveOk : Bool) (e : StripeEvent)
    (u : UserRec) : UserRec :=
  if e.type = "checkout.session.completed" then
    handleCheckoutSessionCompleted f saveOk e.session u
  else if e.type = "customer.subscription.created"
      ∨ e.type = "customer.subscription.updated" then
    handleSubscriptionUpdated saveOk e.sub u
  else if e.type = "customer.subscription.deleted" then
    handleSubscriptionDeleted saveOk e.sub u
  else u

/-- A thrown JavaScript error, as far as these endpoints distinguish
them. -/
inductive JsError where
  /-- Stack overflow raised by the self-recursive `logger.error` of
  `utils/logger.js`, whose body invokes `logger.error` again. -/
  | rangeError : JsError
  /-- Property access on `undefined` — `stripe.subscriptions` on the
  `config/stripe.js` module exports. -/
  | typeError : JsError
  /-- A failing Mongoose `user.save()`. -/
  | dbError : JsError
  /-- An error raised by a Stripe API call. -/
  | providerError : JsError
  /-- `stripe.webhooks.constructEvent` rejecting the signature or
  payload. -/
  | signatureError : JsError
  deriving DecidableEq, Repr

/-- `logger.error` from `utils/logger.js`: its body calls `logger.error`
itself, so every invocation recurses until the stack overflows.  Whatever
it was asked to log is discarded and a `RangeError` is thrown instead. -/
def loggerError (_discarded : Option JsError) : JsError :=
  JsError.rangeError

/-- Outcome of an HTTP request: a response with a status (a normal
return, or an `ApiError` mapped to its status by the error middleware),
or an uncaught exception handed to the generic error handler (a 5xx). -/
inductive ReqOutcome where
  | http (status : Nat) : ReqOutcome
  | uncaught (e : JsError) : ReqOutcome
  deriving DecidableEq, Repr

/-- Runs the `switch (event.type)` of `handleStripeWebhook`, tracking
both the stored record and the error, if any, escaping the invoked
handler.  `handleCheckoutSessionCompleted` reaches `logger.error` — which
throws — on a missing session subscription id (before its `try`) and, via
its `catch`, on a provider throw, a missing user, or a failing save;
`handleSubscriptionUpdated` returns cleanly when no user matches and logs
only from its `catch` (failing save); `handleSubscriptionDeleted` and the
invoice handlers log — and therefore throw — when no user matches; the
invoice handlers return cleanly on non-subscription invoices and write no
record state (`analyticsService.trackEvent` catches its own errors with
`console.error` and never throws); the `default` branch logs the
unhandled type and therefore throws. -/
def runEventHandler (f : Fetch) (saveOk : Bool) (e : StripeEvent)
    (u : UserRec) : UserRec × Option JsError :=
  if e.type = "checkout.session.completed" then
    match e.session.subscription with
    | none => (u, some (loggerError none))
    | some subId =>
      match f subId with
      | none =>
        (u, some (loggerError (some (loggerError
          (some JsError.providerError)))))
      | some _ =>
        if u.stripeCustomerId = some e.session.customer then
          if saveOk then
            (handleCheckoutSessionCompleted f saveOk e.session u, none)
          else (u, some (loggerError (some JsError.dbError)))
        else (u, some (loggerError (some (loggerError none))))
  else if e.type = "customer.subscription.created"
      ∨ e.type = "customer.subscription.updated" then
    match u.subscription with
    | none => (u, none)
    | some s =>
      if s.subscriptionId = some e.sub.id then
        if saveOk then (handleSubscriptionUpdated saveOk e.sub u, none)
        else (u, some (loggerError (some JsError.dbError)))
      else (u, none)
  else if e.type = "customer.subscription.deleted" then
    match u.subscription with
    | none => (u, some (loggerError (some (loggerError none))))
    | some s =>
      if s.subscriptionId = some e.sub.id then
        if saveOk then (handleSubscriptionDeleted saveOk e.sub u, none)
        else (u, some (loggerError (some JsError.dbError)))
      else (u, some (loggerError (some (loggerError none))))
  else if e.type = "invoice.payment_succeeded"
      ∨ e.type = "invoice.payment_failed" then
    match e.invoice with
    | none => (u, none)
    | some invSub =>
      match u.subscription with
      | none => (u, some (loggerError (some (loggerError none))))
      | some s =>
        if s.subscriptionId = some invSub then (u, none)
        else (u, some (loggerError (some (loggerError none))))
  else (u, some (loggerError none))

/-- Outcome of a webhook request: the response or uncaught exception, the
stored user record afterwards, and the idempotency-ledger entries created
by the request (the source maintains no ledger, so no path ever creates
one). -/
structure WebhookRun where
  outcome : ReqOutcome
  user : UserRec
  ledgerEntries : List String
  deriving DecidableEq, Repr

/-- The tail of `handleStripeWebhook`'s `try` block: a handler returning
normally is followed by `res.status(200)`; an error escaping a handler is
caught, and the `catch` block's own `logger.error` throws a `RangeError`
before the `throw new ApiError(400, ...)` line is reached, so the request
ends as an uncaught exception. -/
def webhookRespond (r : UserRec × Option JsError) : WebhookRun :=
  match r.2 with
  | none => ⟨ReqOutcome.http 200, r.1, []⟩
  | some err => ⟨ReqOutcome.uncaught (loggerError (some err)), r.1, []⟩

/-- `handleStripeWebhook(req, res)` as the source actually behaves: a
missing `stripe-signature` header throws `ApiError(400)` before the `try`
— no logging on that path, so the error middleware answers 400 with the
record untouched; `constructEventFromPayload` failing verification logs
in its `catch`, where the self-recursive `logger.error` throws a
`RangeError` that replaces the signature error, and the webhook's own
`catch` logs the same way, so that path ends as an uncaught exception; a
verified event is dispatched and answered 200 exactly when its handler
reaches no `logger.error` call. -/
def handleStripeWebhookRun (f : Fetch) (saveOk : Bool)
    (signature : Option String) (event : Option StripeEvent)
    (u : UserRec) : WebhookRun :=
  match signature with
  | none => ⟨ReqOutcome.http 400, u, []⟩
  | some _ =>
    match event with
    | none =>
      ⟨ReqOutcome.uncaught
        (loggerError (some (loggerError (some JsError.signatureError)))),
        u, []⟩
    | some e => webhookRespond (runEventHandler f saveOk e u)

/-- A write request issued to the billing provider. -/
inductive ProviderCall where
  /-- `stripe.subscriptions.update(id, \x7b cancel_at_period_end: true \x7d)`. -/
  | updateCancelAtPeriodEnd (id : String) : ProviderCall
  /-- `stripe.subscriptions.cancel(id)` — immediate cancellation. -/
  | cancelNow (id : String) : ProviderCall
  /-- `stripe.updateSubscription(id, newPriceId)` — plan change. -/
  | updateSubPlan (id : String) (planId : String) : ProviderCall
  deriving DecidableEq, Repr

/-- Outcome of an authenticated subscription action: HTTP status, the
stored user record afterwards, and the provider write requests issued. -/
structure CtrlResult where
  httpStatus : Nat
  user : UserRec
  calls : List ProviderCall
  deriving DecidableEq, Repr

/-- `cancelSubscription` controller (`POST /v1/subscriptions/cancel`).
`cancelImmediately` defaults to `false`; the provider call is
`stripe.cancelSubscription(id, !cancelImmediately)`, which per
`config/stripe.js` sets `cancel_at_period_end: true` when the flag is
true and cancels immediately otherwise.  Locally the status becomes
`canceled` when cancelling immediately and `active` otherwise, and
`cancelAtPeriodEnd` is set to `!cancelImmediately`. -/
def cancelSubscription (cancelImmediately : Bool) (u : UserRec) : CtrlResult :=
  match u.subscription with
  | none => ⟨400, u, []⟩
  | some s =>
    match s.subscriptionId with
    | none => ⟨400, u, []⟩
    | some sid =>
      ⟨200,
        { u with
          subscription := some
            { s with
              status := if cancelImmediately then "canceled" else "active"
              cancelAtPeriodEnd := !cancelImmediately } },
        [if cancelImmediately then ProviderCall.cancelNow sid
         else ProviderCall.updateCancelAtPeriodEnd sid]⟩

/-- Outcome of the reactivate endpoint: response or uncaught exception,
the stored record afterwards, and the provider write requests issued. -/
structure ReactivateResult where
  outcome : ReqOutcome
  user : UserRec
  calls : List ProviderCall
  deriving DecidableEq, Repr

/-- `reactivateSubscription` controller (`POST /v1/subscriptions/reactivate`):
`ApiError(400)` when there is no subscription, no subscription id, or
`cancelAtPeriodEnd` is not set.  When every guard passes, the controller
runs `stripe.subscriptions.update(...)` — but `stripe` there is the
`config/stripe.js` module exports, which has no `subscriptions` property
(the raw client is its `stripe` field, and the module's correct
`reactivateSubscription` helper is never called) — so the line throws a
`TypeError` on every run, before the local `cancelAtPeriodEnd := false`
write: no provider request is issued, the record is never changed, and
the source's success response is dead code. -/
def reactivateSubscription (u : UserRec) : ReactivateResult :=
  match u.subscription with
  | none => ⟨ReqOutcome.http 400, u, []⟩
  | some s =>
    match s.subscriptionId with
    | none => ⟨ReqOutcome.http 400, u, []⟩
    | some _ =>
      if s.cancelAtPeriodEnd then ⟨ReqOutcome.uncaught JsError.typeError, u, []⟩
      else ⟨ReqOutcome.http 400, u, []⟩

/-- Result of `getUserSubscription` (`GET /v1/subscriptions/my-subscription`):
the response or uncaught exception, the JSON projection (`subscription`
may be `null`, in which case the view fields are absent), whether the
response reported an active subscription, and the stored record
afterwards. -/
structure GetSubResult where
  outcome : ReqOutcome
  planId : Option String
  status : Option String
  currentPeriodEnd : Option Int
  cancelAtPeriodEnd : Option Bool
  hasActiveSubscription : Bool
  user : UserRec
  deriving DecidableEq, Repr

/-- `getUserSubscription` controller.  When the user has a
`stripeCustomerId` and a stored `subscription.subscriptionId`, the latest
details are fetched from Stripe (`provider`; `none` models a throw): on a
throw, the `catch` in `config/stripe.js` and the controller's `catch`
both call the self-recursive `logger.error`, so the request ends as an
uncaught `RangeError` — the 200/`subscription: null` fall-through below
the `try` is unreachable on that path — with the record unchanged.  On a
successful fetch a changed status is written back (the write-back save is
modelled as succeeding; a failing save would leave the record unchanged
and end in the same uncaught path via the controller's `catch`) and the
response projects the stored record with `cancelAtPeriodEnd` taken from
the provider.  When the guard fails (no customer id, no subscription, no
subscription id) the response is `200` with a null subscription and
`hasActiveSubscription = false`, leaving the record unchanged. -/
def getUserSubscription (provider : Option StripeSubscription)
    (u : UserRec) : GetSubResult :=
  match u.stripeCustomerId, u.subscription with
  | some _, some s =>
    match s.subscriptionId with
    | some _ =>
      match provider with
      | some det =>
        let u' :=
          if det.status ≠ s.status then
            { u with subscription := some { s with status := det.status } }
          else u
        let st := if det.status ≠ s.status then det.status else s.status
        ⟨ReqOutcome.http 200, some s.planId, some st,
          some s.currentPeriodEnd, some det.cancel_at_period_end,
          st = "active", u'⟩
      | none =>
        ⟨ReqOutcome.uncaught
          (loggerError (some (loggerError (some JsError.providerError)))),
          none, none, none, none, false, u⟩
    | none => ⟨ReqOutcome.http 200, none, none, none, none, false, u⟩
  | _, _ => ⟨ReqOutcome.http 200, none, none, none, none, false, u⟩

/-- `updateSubscription` controller (`PUT /v1/subscriptions/update`):
`validPlan` models the check that `newPlanId` is one of the two configured
price ids.  400 when the plan is invalid, there is no subscription id, or
the user is already on `newPlanId`; otherwise the provider subscription is
updated and only `planId` changes locally. -/
def updateSubscription (validPlan : Bool) (newPlanId : String)
    (u : UserRec) : CtrlResult :=
  if validPlan then
    match u.subscription with
    | none => ⟨400, u, []⟩
    | some s =>
      match s.subscriptionId with
      | none => ⟨400, u, []⟩
      | some sid =>
        if s.planId = newPlanId then ⟨400, u, []⟩
        else
          ⟨200,
            { u with subscription := some { s with planId := newPlanId } },
            [ProviderCall.updateSubPlan sid newPlanId]⟩
  else ⟨400, u, []⟩

/-- Deliver the same event `n` times in sequence. -/
def deliverN (f : Fetch) (saveOk : Bool) (e : StripeEvent) :
    Nat → UserRec → UserRec
  | 0, u => u
  | n + 1, u => deliverN f saveOk e n (dispatchEvent f saveOk e u)

/-- Modelled from the spec: the record field `lastAppliedEventTimestamp`
(timestamp of the most recent event that modified the record) is absent
from the code; it is tracked here alongside the record, updated to
`e.created` exactly when delivering `e` changed the stored record. -/
def applyTracked (f : Fetch) (saveOk : Bool) (st : UserRec × Int)
    (e : StripeEvent) : UserRec × Int :=
  let u' := dispatchEvent f saveOk e st.1
  (u', if u' = st.1 then st.2 else e.created)

lemma addPremium_contains (l : List String) :
    (addPremium l).contains "premium" = true := by
  unfold addPremium
  split_ifs with h
  · exact h
  · simp

lemma addPremium_idem (l : List String) :
    addPremium (addPremium l) = addPremium l := by
  have h : addPremium (addPremium l) =
      if (addPremium l).contains "premium" then addPremium l
      else addPremium l ++ ["premium"] := rfl
  rw [h, if_pos (addPremium_contains l)]

lemma removePremium_idem (l : List String) :
    removePremium (removePremium l) = removePremium l := by
  simp [removePremium, List.filter_filter]

lemma roleAdjust_idem (st : String) (l : List String) :
    roleAdjust st (roleAdjust st l) = roleAdjust st l := by
  unfold roleAdjust
  split_ifs with h1 h2
  · exact addPremium_idem l
  · exact removePremium_idem l
  · rfl

lemma pickPlan_eq (a b : String) : pickPlan a b = a := by
  by_cases h : a = b <;> simp [pickPlan, h]

lemma handleCheckoutSessionCompleted_noSave (f : Fetch)
    (session : CheckoutSession) (u : UserRec) :
    handleCheckoutSessionCompleted f false session u = u := by
  unfold handleCheckoutSessionCompleted
  split
  · rfl
  · split
    · rfl
    · split <;> simp

lemma handleSubscriptionUpdated_noSave (sub : StripeSubscription)
    (u : UserRec) :
    handleSubscriptionUpdated false sub u = u := by
  unfold handleSubscriptionUpdated
  split
  · rfl
  · split <;> simp

lemma handleSubscriptionDeleted_noSave (sub : StripeSubscription)
    (u : UserRec) :
    handleSubscriptionDeleted false sub u = u := by
  unfold handleSubscriptionDeleted
  split
  · rfl
  · split <;> simp

/-- When the persistence write fails, every event handler leaves the stored
record unchanged (and, in the source, logs instead of rethrowing). -/
lemma dispatchEvent_noSave (f : Fetch) (e : StripeEvent) (u : UserRec) :
    dispatchEvent f false e u = u := by
  unfold dispatchEvent
  split_ifs <;>
    simp [handleCheckoutSessionCompleted_noSave,
      handleSubscriptionUpdated_noSave, handleSubscriptionDeleted_noSave]

lemma handleCheckoutSessionCompleted_idem (f : Fetch) (saveOk : Bool)
    (session : CheckoutSession) (u : UserRec) :
    handleCheckoutSessionCompleted f saveOk session
      (handleCheckoutSessionCompleted f saveOk session u)
      = handleCheckoutSessionCompleted f saveOk session u := by
  cases saveOk with
  | false =>
    rw [handleCheckoutSessionCompleted_noSave,
      handleCheckoutSessionCompleted_noSave]
  | true =>
    rcases hs : session.subscription with _ | subId
    · simp [handleCheckoutSessionCompleted, hs]
    · rcases hf : f subId with _ | det
      · simp [handleCheckoutSessionCompleted, hs, hf]
      · by_cases hc : u.stripeCustomerId = some session.customer
        · simp [handleCheckoutSessionCompleted, hs, hf, hc, addPremium_idem]
        · simp [handleCheckoutSessionCompleted, hs, hf, hc]

lemma handleSubscriptionUpdated_idem (saveOk : Bool)
    (sub : StripeSubscription) (u : UserRec) :
    handleSubscriptionUpdated saveOk sub (handleSubscriptionUpdated saveOk sub u)
      = handleSubscriptionUpdated saveOk sub u := by
  cases saveOk with
  | false =>
    rw [handleSubscriptionUpdated_noSave, handleSubscriptionUpdated_noSave]
  | true =>
    rcases hs : u.subscription with _ | s
    · simp [handleSubscriptionUpdated, hs]
    · by_cases hid : s.subscriptionId = some sub.id
      · simp [handleSubscriptionUpdated, hs, hid, pickPlan_eq, roleAdjust_idem]
      · simp [handleSubscriptionUpdated, hs, hid]

lemma handleSubscriptionDeleted_idem (saveOk : Bool)
    (sub : StripeSubscription) (u : UserRec) :
    handleSubscriptionDeleted saveOk sub (handleSubscriptionDeleted saveOk sub u)
      = handleSubscriptionDeleted saveOk sub u := by
  cases saveOk with
  | false =>
    rw [handleSubscriptionDeleted_noSave, handleSubscriptionDeleted_noSave]
  | true =>
    rcases hs : u.subscription with _ | s
    · simp [handleSubscriptionDeleted, hs]
    · by_cases hid : s.subscriptionId = some sub.id
      · simp [handleSubscriptionDeleted, hs, hid, removePremium_idem]
      · simp [handleSubscriptionDeleted, hs, hid]

/-- Re-dispatching the very same event is absorbed: every field written by a
handler is a function of the event alone, and the role edits are
idempotent. -/
lemma dispatchEvent_idem (f : Fetch) (saveOk : Bool) (e : StripeEvent)
    (u : UserRec) :
    dispatchEvent f saveOk e (dispatchEvent f saveOk e u)
      = dispatchEvent f saveOk e u := by
  unfold dispatchEvent
  split_ifs
  · exact handleCheckoutSessionCompleted_idem f saveOk e.session u
  · exact handleSubscriptionUpdated_idem saveOk e.sub u
  · exact handleSubscriptionDeleted_idem saveOk e.sub u
  · rfl

/-- Coherence of the two layers: the record component of
`runEventHandler` always agrees with the record effect `dispatchEvent`;
the two differ only in that `runEventHandler` also reports the error
escaping the handler. -/
lemma runEventHandler_user (f : Fetch) (saveOk : Bool) (e : StripeEvent)
    (u : UserRec) :
    (runEventHandler f saveOk e u).1 = dispatchEvent f saveOk e u := by
  unfold runEventHandler dispatchEvent
  by_cases h1 : e.type = "checkout.session.completed"
  · simp only [if_pos h1]
    unfold handleCheckoutSessionCompleted
    rcases e.session.subscription with _ | subId
    · rfl
    · dsimp only
      rcases f subId with _ | det
      · rfl
      · dsimp only
        by_cases hc : u.stripeCustomerId = some e.session.customer
        · cases saveOk <;> simp [hc]
        · simp [hc]
  · simp only [if_neg h1]
    by_cases h2 : e.type = "customer.subscription.created"
        ∨ e.type = "customer.subscription.updated"
    · simp only [if_pos h2]
      unfold handleSubscriptionUpdated
      rcases u.subscription with _ | s
      · rfl
      · dsimp only
        by_cases hid : s.subscriptionId = some e.sub.id
        · cases saveOk <;> simp [hid]
        · simp [hid]
    · simp only [if_neg h2]
      by_cases h3 : e.type = "customer.subscription.deleted"
      · simp only [if_pos h3]
        unfold handleSubscriptionDeleted
        rcases u.subscription with _ | s
        · rfl
        · dsimp only
          by_cases hid : s.subscriptionId = some e.sub.id
          · cases saveOk <;> simp [hid]
          · simp [hid]
      · simp only [if_neg h3]
        by_cases h4 : e.type = "invoice.payment_succeeded"
            ∨ e.type = "invoice.payment_failed"
        · simp only [if_pos h4]
          rcases e.invoice with _ | invSub
          · rfl
          · dsimp only
            rcases u.subscription with _ | s
            · rfl
            · dsimp only
              by_cases hid : s.subscriptionId = some invSub
              · simp [hid]
              · simp [hid]
        · simp only [if_neg h4]

/-- A provider lookup that always throws. -/
def fetchNone : Fetch := fun _ => none

/-- A stored record holding an older subscription state. -/
def userBase : UserRec :=
  ⟨some "cus_1", some ⟨some "sub_1", "price_m", "trialing", 0, false⟩, ["user"]⟩

/-- A `customer.subscription.updated` event carrying the newer state
(`occurredAt = 200`). -/
def evNewer : StripeEvent :=
  ⟨"evt_2", "customer.subscription.updated", 200,
    ⟨none, "cus_1"⟩, ⟨"sub_1", "active", 1700003600, false, "price_m"⟩, none⟩

/-- A `customer.subscription.updated` event describing the older state
(`occurredAt = 100`). -/
def evOlder : StripeEvent :=
  ⟨"evt_1", "customer.subscription.updated", 100,
    ⟨none, "cus_1"⟩, ⟨"sub_1", "past_due", 1700000000, true, "price_m"⟩, none⟩

/-- C1: delivering the same billing event any number of times in sequence
leaves the subscription state store in exactly the state produced by
applying the event once; applications after the first change nothing. -/
theorem claim_duplicate_delivery_idempotent (f : Fetch) (saveOk : Bool)
    (e : StripeEvent) (u : UserRec) (n : Nat) :
    deliverN f saveOk e (n + 1) u = dispatchEvent f saveOk e u := by
  induction n generalizing u with
  | zero => rfl
  | succ n ih =>
    show deliverN f saveOk e (n + 1) (dispatchEvent f saveOk e u)
      = dispatchEvent f saveOk e u
    rw [ih, dispatchEvent_idem]

/-- A matching `customer.subscription.updated` event overwrites the whole
subscription sub-document with the event's values (the plan always ends up
as the event's price id) and adjusts roles, with no condition on event
time. -/
lemma subUpdated_overwrites (f : Fetch) (e : StripeEvent) (u : UserRec)
    (s : Subscription)
    (ht : e.type = "customer.subscription.updated")
    (hs : u.subscription = some s)
    (hid : s.subscriptionId = some e.sub.id) :
    dispatchEvent f true e u =
      { u with
        subscription := some
          ⟨some e.sub.id, e.sub.priceId, e.sub.status,
            e.sub.current_period_end * 1000, e.sub.cancel_at_period_end⟩
        roles := roleAdjust e.sub.status u.roles } := by
  unfold dispatchEvent
  rw [ht]
  simp [handleSubscriptionUpdated, hs, hid, pickPlan_eq]

/-- C2 is false of the code: after the newer event `evNewer` has been
applied (so `lastAppliedEventTimestamp = 200`), delivering the stale event
`evOlder` (`occurredAt = 100 ≤ 200`) still changes the record, regressing
its status from `active` to `past_due`. -/
theorem claim_stale_ignored_counterexample :
    evOlder.created ≤ (applyTracked fetchNone true (userBase, 0) evNewer).2
    ∧ (applyTracked fetchNone true
        (applyTracked fetchNone true (userBase, 0) evNewer) evOlder).1
      ≠ (applyTracked fetchNone true (userBase, 0) evNewer).1 := by
  decide

/-- C2 (amended): the code performs no staleness check.  A
`customer.subscription.updated` event whose subscription id matches the
stored record is applied unconditionally — `status`, `currentPeriodEnd`,
`cancelAtPeriodEnd` and `planId` are overwritten from the event whatever
its `occurredAt`, so an event describing an older state that arrives after
a newer one does regress the record (last delivery wins). -/
theorem claim_stale_event_still_applied (f : Fetch) (e : StripeEvent)
    (u : UserRec) (s : Subscription)
    (ht : e.type = "customer.subscription.updated")
    (hs : u.subscription = some s)
    (hid : s.subscriptionId = some e.sub.id) :
    (dispatchEvent f true e u).subscription =
      some ⟨some e.sub.id, e.sub.priceId, e.sub.status,
        e.sub.current_period_end * 1000, e.sub.cancel_at_period_end⟩ := by
  rw [subUpdated_overwrites f e u s ht hs hid]

theorem claim_stale_event_still_applied_witness :
    (dispatchEvent fetchNone true evOlder
      (dispatchEvent fetchNone true evNewer userBase)).subscription =
      some ⟨some "sub_1", "price_m", "past_due", 1700000000000, true⟩ := by
  have h := claim_stale_event_still_applied fetchNone evOlder
    (dispatchEvent fetchNone true evNewer userBase)
    ⟨some "sub_1", "price_m", "active", 1700003600000, false⟩
    (by decide) (by decide) (by decide)
  exact h

/-- C3 is false of the code: the two delivery orders of `evOlder`
(`occurredAt = 100`) and `evNewer` (`occurredAt = 200`) leave the store in
different final records — whichever event arrives last wins. -/
theorem claim_order_convergence_counterexample :
    evOlder.created < evNewer.created
    ∧ dispatchEvent fetchNone true evNewer
        (dispatchEvent fetchNone true evOlder userBase)
      ≠ dispatchEvent fetchNone true evOlder
        (dispatchEvent fetchNone true evNewer userBase) := by
  decide

/-- C3 (amended): delivery order, not timestamp order, decides the final
record.  For two `customer.subscription.updated` events on the same
subscription, the final subscription sub-document after delivering both is
exactly the one produced by the last-delivered event alone; the two
delivery orders agree only when the two events write identical values. -/
theorem claim_last_delivery_wins (f : Fetch) (e1 e2 : StripeEvent)
    (u : UserRec) (s : Subscription)
    (ht1 : e1.type = "customer.subscription.updated")
    (ht2 : e2.type = "customer.subscription.updated")
    (hs : u.subscription = some s)
    (hid : s.subscriptionId = some e1.sub.id)
    (heq : e2.sub.id = e1.sub.id) :
    (dispatchEvent f true e2 (dispatchEvent f true e1 u)).subscription
      = (dispatchEvent f true e2 u).subscription := by
  rw [subUpdated_overwrites f e1 u s ht1 hs hid]
  rw [subUpdated_overwrites f e2 _
    ⟨some e1.sub.id, e1.sub.priceId, e1.sub.status,
      e1.sub.current_period_end * 1000, e1.sub.cancel_at_period_end⟩
    ht2 rfl (by rw [heq])]
  rw [subUpdated_overwrites f e2 u s ht2 hs (by rw [heq]; exact hid)]

theorem claim_last_delivery_wins_witness :
    (dispatchEvent fetchNone true evOlder
      (dispatchEvent fetchNone true evNewer userBase)).subscription
      = (dispatchEvent fetchNone true evOlder userBase).subscription := by
  have h := claim_last_delivery_wins fetchNone evNewer evOlder userBase
    ⟨some "sub_1", "price_m", "trialing", 0, false⟩
    (by decide) (by decide) (by decide) (by decide) (by decide)
  exact h

/-- The five event types the claim lists as handled. -/
def claimedHandledTypes : List String :=
  ["customer.subscription.created", "customer.subscription.updated",
   "customer.subscription.deleted", "invoice.payment_succeeded",
   "invoice.payment_failed"]

/-- The event types the code's `switch` actually mutates state for or
routes to a dedicated handler. -/
def handledTypes : List String :=
  "checkout.session.completed" :: claimedHandledTypes

/-- A provider lookup that resolves `sub_1`. -/
def fetchDemo : Fetch := fun id =>
  if id = "sub_1" then some ⟨"sub_1", "active", 1700003600, false, "price_m"⟩
  else none

/-- A `checkout.session.completed` event for `userBase`'s customer. -/
def evCheckout : StripeEvent :=
  ⟨"evt_3", "checkout.session.completed", 300,
    ⟨some "sub_1", "cus_1"⟩, ⟨"sub_1", "active", 1700003600, false, "price_m"⟩,
    none⟩

/-- An event type outside the code's `switch`. -/
def evUnknown : StripeEvent :=
  ⟨"evt_9", "invoice.created", 400,
    ⟨none, "cus_1"⟩, ⟨"sub_1", "active", 1700003600, false, "price_m"⟩, none⟩

/-- C4 fails through a code bug in `utils/logger.js`: a request whose
signature verification throws ends as an uncaught `RangeError` — the
webhook `catch`'s self-recursive `logger.error` throws before the
`throw new ApiError(400, ...)` line — not as the claimed 400 (only the
missing-header guard, which never logs, is answered 400), and a verified
event of an unhandled type likewise ends uncaught instead of the claimed
200.  The record and the (nonexistent) ledger stay untouched on all these
paths. -/
theorem claim_webhook_rejection_crashes :
    handleStripeWebhookRun fetchNone true (some "sig") none userBase
      = ⟨ReqOutcome.uncaught JsError.rangeError, userBase, []⟩
    ∧ handleStripeWebhookRun fetchNone true none (some evNewer) userBase
      = ⟨ReqOutcome.http 400, userBase, []⟩
    ∧ handleStripeWebhookRun fetchNone true (some "sig") (some evUnknown)
        userBase
      = ⟨ReqOutcome.uncaught JsError.rangeError, userBase, []⟩ := by
  refine ⟨?_, ?_, ?_⟩ <;> decide

/-- C5 is false as stated, twice over: `checkout.session.completed` is
outside the claim's list of handled types yet is processed with a state
mutation rather than as a no-op, and a genuinely unknown type does not
succeed — the `default` branch's self-recursive `logger.error` throws, so
the request does not return 200. -/
theorem claim_unknown_type_noop_counterexample :
    (evCheckout.type ∉ claimedHandledTypes
      ∧ (handleStripeWebhookRun fetchDemo true (some "sig") (some evCheckout)
          userBase).user ≠ userBase)
    ∧ (evUnknown.type ∉ claimedHandledTypes
      ∧ (handleStripeWebhookRun fetchNone true (some "sig") (some evUnknown)
          userBase).outcome ≠ ReqOutcome.http 200) := by
  decide

/-- C5 (amended): the handled types also include
`checkout.session.completed`, which is processed with a state mutation;
a validly signed event whose type is outside the six types of the code's
`switch` leaves the record and the ledger untouched but does not succeed
as a 200 no-op: the `default` branch's `logger.error` throws, the webhook
`catch`'s `logger.error` throws again, and the request ends as an
uncaught exception. -/
theorem claim_unknown_type_crashes (f : Fetch) (saveOk : Bool)
    (sig : String) (e : StripeEvent) (u : UserRec)
    (h : e.type ∉ handledTypes) :
    handleStripeWebhookRun f saveOk (some sig) (some e) u
      = ⟨ReqOutcome.uncaught JsError.rangeError, u, []⟩ := by
  simp only [handledTypes, claimedHandledTypes, List.mem_cons,
    List.not_mem_nil, or_false] at h
  push_neg at h
  obtain ⟨h1, h2, h3, h4, h5, h6⟩ := h
  have hr : runEventHandler f saveOk e u = (u, some (loggerError none)) := by
    unfold runEventHandler
    rw [if_neg h1, if_neg (not_or.mpr ⟨h2, h3⟩), if_neg h4,
      if_neg (not_or.mpr ⟨h5, h6⟩)]
  have hw : handleStripeWebhookRun f saveOk (some sig) (some e) u
      = webhookRespond (runEventHandler f saveOk e u) := rfl
  rw [hw, hr]
  rfl

theorem claim_unknown_type_crashes_witness :
    handleStripeWebhookRun fetchNone true (some "sig") (some evUnknown)
      userBase = ⟨ReqOutcome.uncaught JsError.rangeError, userBase, []⟩ :=
  claim_unknown_type_crashes fetchNone true "sig" evUnknown userBase
    (by decide)

/-- C8 is false as stated: when the state-store write of a verified
`customer.subscription.updated` event fails, what escapes to the caller
is the logger's `RangeError`, not the store's own typed error — the
handler's `catch` hands the store error to the self-recursive
`logger.error`, which discards it — so the error is not propagated to the
caller as a typed error (the endpoint does, accidentally, not report
success; the lost write is real: with a working store the same event
would have changed the record). -/
theorem claim_errors_propagated_counterexample :
    (handleStripeWebhookRun fetchNone false (some "sig") (some evNewer)
      userBase).outcome = ReqOutcome.uncaught JsError.rangeError
    ∧ ReqOutcome.uncaught JsError.rangeError
        ≠ ReqOutcome.uncaught JsError.dbError
    ∧ (handleStripeWebhookRun fetchNone false (some "sig") (some evNewer)
        userBase).user = userBase
    ∧ dispatchEvent fetchNone true evNewer userBase ≠ userBase := by
  decide

/-- C8 (amended): a verified `customer.subscription.updated` event whose
state-store write fails never yields a success response, but not by
propagation of the typed error: the handler's `catch` calls the
self-recursive `logger.error`, whose `RangeError` replaces the store
error and escapes the webhook's `catch` the same way, so the request ends
as an uncaught exception with the stored record unchanged. -/
theorem claim_store_failure_crashes_masked (f : Fetch) (sig : String)
    (e : StripeEvent) (u : UserRec) (s : Subscription)
    (ht : e.type = "customer.subscription.updated")
    (hs : u.subscription = some s)
    (hid : s.subscriptionId = some e.sub.id) :
    handleStripeWebhookRun f false (some sig) (some e) u
      = ⟨ReqOutcome.uncaught JsError.rangeError, u, []⟩ := by
  have hr : runEventHandler f false e u
      = (u, some (loggerError (some JsError.dbError))) := by
    unfold runEventHandler
    rw [ht]
    simp [hs, hid]
  have hw : handleStripeWebhookRun f false (some sig) (some e) u
      = webhookRespond (runEventHandler f false e u) := rfl
  rw [hw, hr]
  rfl

theorem claim_store_failure_crashes_masked_witness :
    handleStripeWebhookRun fetchNone false (some "sig") (some evNewer)
      userBase = ⟨ReqOutcome.uncaught JsError.rangeError, userBase, []⟩ :=
  claim_store_failure_crashes_masked fetchNone "sig" evNewer userBase
    ⟨some "sub_1", "price_m", "trialing", 0, false⟩ rfl rfl rfl

/-- The spec's record invariant read on the code's data model: a status in
`{active, trialing, past_due}` requires a non-null subscription id, and a
record in the spec's `none` state must have `cancelAtPeriodEnd = false`
(an absent sub-document carries no flag, so only a stored `none` status is
constrained). -/
def invariantHolds (u : UserRec) : Bool :=
  match u.subscription with
  | none => true
  | some s =>
    (if s.status = "active" ∨ s.status = "trialing" ∨ s.status = "past_due"
     then s.subscriptionId.isSome else true)
    && (if s.status = "none" then !s.cancelAtPeriodEnd else true)

lemma invariant_dispatchEvent (f : Fetch) (saveOk : Bool) (e : StripeEvent)
    (u : UserRec) (hu : invariantHolds u = true)
    (hev : e.sub.status ≠ "none")
    (hf : ∀ id det, f id = some det → det.status ≠ "none") :
    invariantHolds (dispatchEvent f saveOk e u) = true := by
  cases saveOk with
  | false => rw [dispatchEvent_noSave]; exact hu
  | true =>
    unfold dispatchEvent
    split_ifs with h1 h2 h3
    · unfold handleCheckoutSessionCompleted
      rcases hs : e.session.subscription with _ | subId
      · exact hu
      · dsimp only
        rcases hfd : f subId with _ | det
        · exact hu
        · dsimp only
          by_cases hc : u.stripeCustomerId = some e.session.customer
          · have hd := hf subId det hfd
            simp [hc, invariantHolds, hd]
          · simpa [hc] using hu
    · unfold handleSubscriptionUpdated
      rcases hs : u.subscription with _ | s
      · exact hu
      · dsimp only
        by_cases hid : s.subscriptionId = some e.sub.id
        · simp [hid, invariantHolds, hev]
        · simpa [hid] using hu
    · unfold handleSubscriptionDeleted
      rcases hs : u.subscription with _ | s
      · exact hu
      · dsimp only
        by_cases hid : s.subscriptionId = some e.sub.id
        · simp [hid, invariantHolds]
        · simpa [hid] using hu
    · exact hu

lemma invariant_cancelSubscription (ci : Bool) (u : UserRec)
    (hu : invariantHolds u = true) :
    invariantHolds (cancelSubscription ci u).user = true := by
  unfold cancelSubscription
  rcases hs : u.subscription with _ | s
  · exact hu
  · dsimp only
    rcases hid : s.subscriptionId with _ | sid
    · exact hu
    · cases ci <;> simp [invariantHolds, hid]

lemma invariant_reactivateSubscription (u : UserRec)
    (hu : invariantHolds u = true) :
    invariantHolds (reactivateSubscription u).user = true := by
  unfold reactivateSubscription
  rcases hs : u.subscription with _ | s
  · exact hu
  · dsimp only
    rcases hid : s.subscriptionId with _ | sid
    · exact hu
    · dsimp only
      by_cases hflag : s.cancelAtPeriodEnd = true <;> simpa [hflag] using hu

lemma invariant_getUserSubscription (p : Option StripeSubscription)
    (u : UserRec) (hu : invariantHolds u = true)
    (hp : ∀ det, p = some det → det.status ≠ "none") :
    invariantHolds (getUserSubscription p u).user = true := by
  unfold getUserSubscription
  rcases hc : u.stripeCustomerId with _ | cid
  · exact hu
  · rcases hs : u.subscription with _ | s
    · exact hu
    · dsimp only
      rcases hid : s.subscriptionId with _ | sid
      · exact hu
      · dsimp only
        rcases hpv : p with _ | det
        · exact hu
        · dsimp only
          have hd := hp det hpv
          by_cases hneq : det.status = s.status
          · simpa [hneq] using hu
          · simp [hneq, invariantHolds, hid, hd]

lemma invariant_updateSubscription (vp : Bool) (plan : String) (u : UserRec)
    (hu : invariantHolds u = true) :
    invariantHolds (updateSubscription vp plan u).user = true := by
  unfold updateSubscription
  cases vp with
  | false => exact hu
  | true =>
    rcases hs : u.subscription with _ | s
    · exact hu
    · dsimp only
      rcases hid : s.subscriptionId with _ | sid
      · exact hu
      · dsimp only
        by_cases hpl : s.planId = plan
        · simpa [hpl] using hu
        · have hu' : invariantHolds u
              = ((if s.status = "active" ∨ s.status = "trialing"
                    ∨ s.status = "past_due"
                  then s.subscriptionId.isSome else true)
                && (if s.status = "none" then !s.cancelAtPeriodEnd
                    else true)) := by
            unfold invariantHolds
            rw [hs]
          rw [hu'] at hu
          simp [hpl, invariantHolds, hid]
          simp [hid] at hu
          exact hu

/-- C6: every operation that writes the subscription record — webhook
dispatch (checkout completion, subscription update, subscription
deletion), user cancel, reactivate, the subscription query's status
write-back, and plan change — preserves the record invariant, assuming the
provider never reports the pseudo-status `none` (which in the code is
represented by an absent sub-document, not a stored status value). -/
theorem claim_invariant_preserved (f : Fetch) (saveOk : Bool)
    (e : StripeEvent) (p : Option StripeSubscription) (ci vp : Bool)
    (plan : String) (u : UserRec)
    (hu : invariantHolds u = true)
    (hev : e.sub.status ≠ "none")
    (hf : ∀ id det, f id = some det → det.status ≠ "none")
    (hp : ∀ det, p = some det → det.status ≠ "none") :
    invariantHolds (dispatchEvent f saveOk e u) = true
    ∧ invariantHolds (cancelSubscription ci u).user = true
    ∧ invariantHolds (reactivateSubscription u).user = true
    ∧ invariantHolds (getUserSubscription p u).user = true
    ∧ invariantHolds (updateSubscription vp plan u).user = true :=
  ⟨invariant_dispatchEvent f saveOk e u hu hev hf,
   invariant_cancelSubscription ci u hu,
   invariant_reactivateSubscription u hu,
   invariant_getUserSubscription p u hu hp,
   invariant_updateSubscription vp plan u hu⟩

theorem claim_invariant_preserved_witness :
    invariantHolds (dispatchEvent fetchNone true evNewer userBase) = true
    ∧ invariantHolds (cancelSubscription false userBase).user = true
    ∧ invariantHolds (reactivateSubscription userBase).user = true
    ∧ invariantHolds (getUserSubscription none userBase).user = true
    ∧ invariantHolds (updateSubscription true "price_y" userBase).user
        = true :=
  claim_invariant_preserved fetchNone true evNewer none false true
    "price_y" userBase (by decide) (by decide)
    (fun _ _ h => Option.noConfusion h) (fun _ h => Option.noConfusion h)

/-- C7: with a stored subscription id, cancelling with
`cancelImmediately = false` (the claim's `atPeriodEnd = true`) requests
`cancel_at_period_end` at the provider and leaves the local record
`active` with `cancelAtPeriodEnd = true`, while `cancelImmediately = true`
(`atPeriodEnd = false`) cancels the provider subscription immediately and
sets the local status to `canceled`. -/
theorem claim_cancel_behavior (u : UserRec) (s : Subscription) (sid : String)
    (hs : u.subscription = some s) (hid : s.subscriptionId = some sid) :
    cancelSubscription false u
      = ⟨200,
          { u with subscription := some { s with status := "active", cancelAtPeriodEnd := true } },
          [ProviderCall.updateCancelAtPeriodEnd sid]⟩
    ∧ cancelSubscription true u
      = ⟨200,
          { u with subscription := some { s with status := "canceled", cancelAtPeriodEnd := false } },
          [ProviderCall.cancelNow sid]⟩ := by
  unfold cancelSubscription
  rw [hs]
  dsimp only
  rw [hid]
  exact ⟨rfl, rfl⟩

theorem claim_cancel_behavior_witness :
    cancelSubscription false userBase
      = ⟨200,
          ⟨some "cus_1", some ⟨some "sub_1", "price_m", "active", 0, true⟩,
            ["user"]⟩,
          [ProviderCall.updateCancelAtPeriodEnd "sub_1"]⟩
    ∧ cancelSubscription true userBase
      = ⟨200,
          ⟨some "cus_1", some ⟨some "sub_1", "price_m", "canceled", 0, false⟩,
            ["user"]⟩,
          [ProviderCall.cancelNow "sub_1"]⟩ :=
  claim_cancel_behavior userBase
    ⟨some "sub_1", "price_m", "trialing", 0, false⟩ "sub_1" rfl rfl

/-- A record scheduled for cancellation at period end, with a stored
customer id and subscription id. -/
def userPend : UserRec :=
  ⟨some "cus_1", some ⟨some "sub_1", "price_m", "active", 5, true⟩,
    ["user", "premium"]⟩

/-- C9 fails through the same logger bug: with a stored customer id and
subscription id, a throwing provider lookup does not fall through to the
200/`subscription: null` response — the catches in `config/stripe.js` and
in the controller both call the self-recursive `logger.error`, so the
request ends as an uncaught `RangeError` — though the stored record is
indeed left unchanged. -/
theorem claim_query_provider_error_crashes :
    getUserSubscription none userPend
      = ⟨ReqOutcome.uncaught JsError.rangeError, none, none, none, none,
          false, userPend⟩ := by
  decide

/-- C10 fails through a code bug at the controller's provider call: with
every guard passing, `stripe.subscriptions.update` throws a `TypeError`
(the `config/stripe.js` module exports no `subscriptions` property), so
the success path — clearing `cancelAtPeriodEnd` and answering 200 — is
dead code and the flag stays `true`; the guard failures do answer 400
with the record unchanged. -/
theorem claim_reactivate_dead_success_path :
    reactivateSubscription userPend
      = ⟨ReqOutcome.uncaught JsError.typeError, userPend, []⟩
    ∧ userPend.subscription
        = some ⟨some "sub_1", "price_m", "active", 5, true⟩
    ∧ reactivateSubscription userBase
        = ⟨ReqOutcome.http 400, userBase, []⟩ := by
  decide
